import Mathlib

/-!
Verification of the AddExpenseScreen component
(src/screens/Expenses/AddExpenseScreen.tsx).

The screen is shallowly embedded: React `useState` fields become a
`ScreenState` record; each handler / effect body becomes an explicit
function from the state (plus the results of its external calls) to the
new state together with its observable outputs (dispatched expense
records, emitted toasts).
-/

namespace AddExpense

/-- A JavaScript number as produced by `parseFloat`: either NaN, a signed
infinity, or a finite value (idealised as an exact rational). -/
inductive JSNum where
  | nan : JSNum
  | inf (neg : Bool) : JSNum
  | num (q : ℚ) : JSNum
deriving DecidableEq, Repr

/-- Leading-whitespace characters skipped by `parseFloat` (the common
ASCII subset of JavaScript's WhiteSpace / LineTerminator classes). -/
def isJsSpace (c : Char) : Bool :=
  c = ' ' || c = '\t' || c = '\n' || c = '\r'

/-- Split a character list into its longest prefix of decimal digits and
the rest. -/
def spanDigits : List Char → List Char × List Char
  | [] => ([], [])
  | c :: rest =>
    if c.isDigit then
      let p := spanDigits rest
      (c :: p.1, p.2)
    else ([], c :: rest)

/-- Value of a list of decimal digit characters, most significant first. -/
def digitsToNat (ds : List Char) : Nat :=
  ds.foldl (fun a c => 10 * a + (c.toNat - 48)) 0

/-- Modelled from the spec: the JavaScript builtin `parseFloat`, which is
not part of this repository.  It skips leading whitespace, reads an
optional sign, recognises `Infinity`, then the longest prefix of the form
`digits [. digits] [(e|E) [sign] digits]` (also `.digits`); if no digits
are read the result is NaN.  Finite values are idealised as exact
rationals. -/
def parseFloatChars (cs0 : List Char) : JSNum :=
  let cs := cs0.dropWhile isJsSpace
  let signAndRest : Bool × List Char :=
    match cs with
    | '-' :: r => (true, r)
    | '+' :: r => (false, r)
    | _ => (false, cs)
  let neg := signAndRest.1
  let cs1 := signAndRest.2
  if cs1.take 8 = "Infinity".data then JSNum.inf neg
  else
    let ip := spanDigits cs1
    let intDs := ip.1
    let fp : List Char × List Char :=
      match ip.2 with
      | '.' :: r => spanDigits r
      | _ => ([], ip.2)
    let fracDs := fp.1
    if intDs = [] ∧ fracDs = [] then JSNum.nan
    else
      let expVal : Int :=
        match fp.2 with
        | 'e' :: r => parseExp r
        | 'E' :: r => parseExp r
        | _ => 0
      let base : Nat := digitsToNat intDs * 10 ^ fracDs.length + digitsToNat fracDs
      let v : ℚ :=
        if 0 ≤ expVal then
          mkRat (base * 10 ^ expVal.toNat) (10 ^ fracDs.length)
        else
          mkRat base (10 ^ (fracDs.length + (-expVal).toNat))
      JSNum.num (if neg then -v else v)
where
  /-- Exponent part after the `e`/`E`: optional sign then digits; if no
  digit follows, JavaScript stops before the `e` and the exponent is 0. -/
  parseExp (r : List Char) : Int :=
    let sr : Bool × List Char :=
      match r with
      | '-' :: rr => (true, rr)
      | '+' :: rr => (false, rr)
      | _ => (false, r)
    let eds := (spanDigits sr.2).1
    if eds = [] then 0
    else if sr.1 then -(digitsToNat eds : Int) else (digitsToNat eds : Int)

/-- `parseFloat` on a string. -/
def parseFloat (s : String) : JSNum := parseFloatChars s.data

/-- A millisecond-precision timestamp, the abstract content of a
JavaScript `Date`. -/
structure Date where
  millis : Int
deriving DecidableEq, Repr

/-- Modelled from the spec: `Date#toISOString`, a JavaScript builtin not
part of this repository, serialising a date to "a standardized timestamp
string".  The claims depend only on which date is serialised, so it is
modelled as a plain rendering of the timestamp. -/
def Date.toISOString (d : Date) : String :=
  "1970-epoch-ms:" ++ toString d.millis

/-- Modelled from the spec: `generateUUID` from `@utils/common`, which is
not part of this repository.  The spec requires only "a string unique
across all expense records"; it is modelled as an injective, non-empty
rendering of a freshness seed. -/
def generateUUID (seed : Nat) : String :=
  String.mk ('u' :: List.replicate seed 'x')

/-- The `{ id, name }` shape used for groups, categories and payment
methods in the UI layer. -/
structure OptionItem where
  id : String
  name : String
deriving DecidableEq, Repr

/-- A group as returned by `ExpenseService.getGroups`; the external
entity carries at least `id` and `name`, plus further data projected away
by the screen. -/
structure Group where
  id : String
  name : String
  extra : String
deriving DecidableEq, Repr

/-- A toast notification as dispatched through `showToast`. -/
structure Toast where
  message : String
  type : String
deriving DecidableEq, Repr

/-- An expense record as built by `handleAddExpense`. -/
structure Expense where
  id : String
  amount : JSNum
  category : String
  description : String
  date : String
  paymentMethod : String
  group : String
deriving DecidableEq, Repr

/-- The screen's `useState` fields. -/
structure ScreenState where
  amount : String
  category : List String
  description : String
  selectedDate : Option Date
  paymentMethod : List String
  group : List String
  availableGroups : List OptionItem
  availableCategories : List OptionItem
  availablePaymentMethods : List OptionItem
  feedbackMessage : String
  isSnackbarVisible : Bool
  snackbarSuccess : Bool
deriving DecidableEq, Repr

/-- The initial state of every `useState` hook. -/
def initialState : ScreenState :=
  { amount := ""
    category := []
    description := ""
    selectedDate := none
    paymentMethod := []
    group := []
    availableGroups := []
    availableCategories := []
    availablePaymentMethods := []
    feedbackMessage := ""
    isSnackbarVisible := false
    snackbarSuccess := true }

/-- `showFeedback`: set the message, the success styling flag, and make
the snackbar visible. -/
def showFeedback (s : ScreenState) (message : String) (success : Bool) : ScreenState :=
  { s with feedbackMessage := message, snackbarSuccess := success, isSnackbarVisible := true }

/-- The body of the `loadGroups` effect (mount effect, lines 32-48).
`result` is the outcome of the awaited `ExpenseService.getGroups` call:
on success the groups are projected to `{ id, name }`, stored, and — when
non-empty — the first group's id is pre-selected; on failure a
`Failed to load groups` error toast is dispatched and the state is left
alone.  Returns the new state and the toasts dispatched. -/
def loadGroups (s : ScreenState) (result : Except Unit (List Group)) :
    ScreenState × List Toast :=
  match result with
  | .error _ => (s, [⟨"Failed to load groups", "error"⟩])
  | .ok groups =>
    let groupList := groups.map (fun g => OptionItem.mk g.id g.name)
    let s1 := { s with availableGroups := groupList }
    match groupList with
    | [] => (s1, [])
    | g :: _ => ({ s1 with group := [g.id] }, [])

/-- JavaScript truthiness of `m[k]` for a visibility mapping: a key that
is absent reads as `undefined`, which is falsy, exactly like a key mapped
to `false`. -/
def lookupVisible (m : List (String × Bool)) (k : String) : Bool :=
  (m.lookup k).getD false

/-- The body of the `loadSettings` effect (focus effect, lines 52-70).
`masterCats` / `masterPms` are the static master lists imported from
`@utils/common`; `catFetch` / `pmFetch` are the outcomes of the two
awaited `SettingsService` calls, in program order: the category list is
stored before the payment-method fetch is awaited, and the single
`catch` dispatches one `Failed to load settings` error toast.  Returns
the new state and the toasts dispatched. -/
def loadSettings (masterCats masterPms : List OptionItem) (s : ScreenState)
    (catFetch pmFetch : Except Unit (List (String × Bool))) :
    ScreenState × List Toast :=
  match catFetch with
  | .error _ => (s, [⟨"Failed to load settings", "error"⟩])
  | .ok visCat =>
    let categoriesList :=
      (masterCats.filter (fun c => lookupVisible visCat c.id)).map
        (fun c => OptionItem.mk c.id c.name)
    let s1 := { s with availableCategories := categoriesList }
    match pmFetch with
    | .error _ => (s1, [⟨"Failed to load settings", "error"⟩])
    | .ok visPm =>
      let paymentMethodsList :=
        (masterPms.filter (fun m => lookupVisible visPm m.id)).map
          (fun m => OptionItem.mk m.id m.name)
      ({ s1 with availablePaymentMethods := paymentMethodsList }, [])

/-- The environment of one `handleAddExpense` call: the seed consumed by
`generateUUID`, the current instant read by `new Date()`, and whether the
`dispatch(addExpense(..))` call throws. -/
structure SubmitEnv where
  uuidSeed : Nat
  now : Date
  dispatchThrows : Bool
deriving DecidableEq, Repr

/-- `handleAddExpense` (lines 76-107).  Validation checks the JavaScript
falsiness of `amount` and `description` (empty string) and emptiness of
the three selection lists; on failure it shows the fixed message and
returns.  Otherwise it builds the expense record and dispatches it;
on a throwing dispatch it shows the failure message and leaves the form
alone, otherwise it shows the success message and resets every field,
the group to the first available group when one exists.  Returns the new
state and the records passed to the store dispatch. -/
def handleAddExpense (s : ScreenState) (env : SubmitEnv) :
    ScreenState × List Expense :=
  if s.amount = "" ∨ s.category = [] ∨ s.description = "" ∨
      s.paymentMethod = [] ∨ s.group = [] then
    (showFeedback s "Please fill out all fields" false, [])
  else
    let id := generateUUID env.uuidSeed
    let newExpense : Expense :=
      { id := id
        amount := parseFloat s.amount
        category := s.category.headD ""
        description := s.description
        date := (s.selectedDate.getD env.now).toISOString
        paymentMethod := s.paymentMethod.headD ""
        group := s.group.headD "" }
    if env.dispatchThrows then
      (showFeedback s "Failed to add expense" false, [newExpense])
    else
      let s1 := showFeedback s "Expense added successfully" true
      ({ s1 with
          amount := ""
          category := []
          description := ""
          selectedDate := none
          paymentMethod := []
          group :=
            match s.availableGroups with
            | [] => []
            | g :: _ => [g.id] }, [newExpense])

/-! Concrete sample data used to exercise the operations. -/

/-- A sample current instant. -/
def demoDate : Date := ⟨86400000⟩

/-- A submit environment whose store dispatch succeeds. -/
def demoEnv : SubmitEnv := ⟨7, demoDate, false⟩

/-- A submit environment whose store dispatch throws. -/
def demoEnvThrow : SubmitEnv := ⟨7, demoDate, true⟩

/-- A fully populated form, as in the spec's worked example. -/
def filledState : ScreenState :=
  { initialState with
      amount := "12.50"
      category := ["food"]
      description := "lunch"
      paymentMethod := ["cash"]
      group := ["g1"]
      availableGroups := [⟨"g1", "Group One"⟩] }

/-- The populated form with its amount text cleared. -/
def invalidState : ScreenState := { filledState with amount := "" }

/-- The populated form with a non-numeric amount text. -/
def nanState : ScreenState := { filledState with amount := "abc" }

/-! Helper lemmas about the modelled externals. -/

/-- The modelled id generator never returns the empty string. -/
theorem generateUUID_ne_empty (seed : Nat) : generateUUID seed ≠ "" := by
  intro h
  have h1 : ('u' :: List.replicate seed 'x') = ([] : List Char) :=
    congrArg String.data h
  exact List.cons_ne_nil _ _ h1

/-- The modelled id generator is injective: distinct seeds give distinct
ids, so generated ids are unique. -/
theorem generateUUID_injective : Function.Injective generateUUID := by
  intro m n h
  have h1 : ('u' :: List.replicate m 'x') = 'u' :: List.replicate n 'x' :=
    congrArg String.data h
  injection h1 with hhead htail
  have h3 := congrArg List.length htail
  simpa using h3

/-- A key absent from a visibility mapping reads as false. -/
theorem lookupVisible_of_lookup_none (m : List (String × Bool)) (k : String)
    (h : m.lookup k = none) : lookupVisible m k = false := by
  simp [lookupVisible, h]

/-- C1: whenever the amount text, category selection, description text,
payment-method selection or group selection is empty, `handleAddExpense`
passes nothing to the store dispatch, shows the failure message
"Please fill out all fields", and leaves every form field unchanged. -/
theorem C1_empty_field_blocks_dispatch (s : ScreenState) (env : SubmitEnv)
    (h : s.amount = "" ∨ s.category = [] ∨ s.description = "" ∨
      s.paymentMethod = [] ∨ s.group = []) :
    (handleAddExpense s env).2 = [] ∧
    (handleAddExpense s env).1.feedbackMessage = "Please fill out all fields" ∧
    (handleAddExpense s env).1.snackbarSuccess = false ∧
    (handleAddExpense s env).1.isSnackbarVisible = true ∧
    (handleAddExpense s env).1.amount = s.amount ∧
    (handleAddExpense s env).1.category = s.category ∧
    (handleAddExpense s env).1.description = s.description ∧
    (handleAddExpense s env).1.selectedDate = s.selectedDate ∧
    (handleAddExpense s env).1.paymentMethod = s.paymentMethod ∧
    (handleAddExpense s env).1.group = s.group := by
  simp [handleAddExpense, if_pos h, showFeedback]

/-- Witness for C1: a populated form whose amount text was cleared. -/
theorem C1_witness :
    (invalidState.amount = "" ∨ invalidState.category = [] ∨
      invalidState.description = "" ∨ invalidState.paymentMethod = [] ∨
      invalidState.group = []) ∧
    ((handleAddExpense invalidState demoEnv).2 = [] ∧
     (handleAddExpense invalidState demoEnv).1.feedbackMessage =
        "Please fill out all fields" ∧
     (handleAddExpense invalidState demoEnv).1.snackbarSuccess = false ∧
     (handleAddExpense invalidState demoEnv).1.isSnackbarVisible = true ∧
     (handleAddExpense invalidState demoEnv).1.amount = invalidState.amount ∧
     (handleAddExpense invalidState demoEnv).1.category = invalidState.category ∧
     (handleAddExpense invalidState demoEnv).1.description = invalidState.description ∧
     (handleAddExpense invalidState demoEnv).1.selectedDate = invalidState.selectedDate ∧
     (handleAddExpense invalidState demoEnv).1.paymentMethod = invalidState.paymentMethod ∧
     (handleAddExpense invalidState demoEnv).1.group = invalidState.group) :=
  ⟨Or.inl rfl, C1_empty_field_blocks_dispatch invalidState demoEnv (Or.inl rfl)⟩

/-- C2: with all five validated fields non-empty, `handleAddExpense`
passes exactly one record to the store dispatch; its amount is the parsed
amount text, its category / payment method / group are the first elements
of the respective selections, its description is the entered text, its id
comes from the (injective, never-empty) id generator, and its date is the
ISO serialisation of the picked date when one is set, of the current
instant otherwise. -/
theorem C2_valid_submit_dispatches_one_record (s : ScreenState) (env : SubmitEnv)
    (c p g : String) (crest prest grest : List String)
    (ha : s.amount ≠ "") (hc : s.category = c :: crest)
    (hd : s.description ≠ "") (hp : s.paymentMethod = p :: prest)
    (hg : s.group = g :: grest) :
    (handleAddExpense s env).2 =
      [{ id := generateUUID env.uuidSeed
         amount := parseFloat s.amount
         category := c
         description := s.description
         date := (s.selectedDate.getD env.now).toISOString
         paymentMethod := p
         group := g }] ∧
    generateUUID env.uuidSeed ≠ "" ∧
    (∀ m n : Nat, generateUUID m = generateUUID n → m = n) ∧
    (∀ d : Date, s.selectedDate = some d → s.selectedDate.getD env.now = d) ∧
    (s.selectedDate = none → s.selectedDate.getD env.now = env.now) := by
  have hcond : ¬(s.amount = "" ∨ s.category = [] ∨ s.description = "" ∨
      s.paymentMethod = [] ∨ s.group = []) := by
    simp [ha, hc, hd, hp, hg]
  refine ⟨?_, generateUUID_ne_empty _, fun m n hmn => generateUUID_injective hmn,
    ?_, ?_⟩
  · cases hB : env.dispatchThrows <;>
      simp [handleAddExpense, hB, hc, hp, hg, ha, hd]
  · intro d hdate
    rw [hdate]
    rfl
  · intro hdate
    rw [hdate]
    rfl

/-- Witness for C2: the spec's worked example, with the amount text
"12.50" evaluating to the rational 12.5. -/
theorem C2_witness :
    filledState.amount ≠ "" ∧
    filledState.category = "food" :: [] ∧
    filledState.description ≠ "" ∧
    filledState.paymentMethod = "cash" :: [] ∧
    filledState.group = "g1" :: [] ∧
    (handleAddExpense filledState demoEnv).2 =
      [{ id := generateUUID demoEnv.uuidSeed
         amount := parseFloat filledState.amount
         category := "food"
         description := filledState.description
         date := (filledState.selectedDate.getD demoEnv.now).toISOString
         paymentMethod := "cash"
         group := "g1" }] ∧
    parseFloat "12.50" = JSNum.num (mkRat 25 2) ∧
    generateUUID demoEnv.uuidSeed ≠ "" ∧
    filledState.selectedDate.getD demoEnv.now = demoEnv.now :=
  have h := C2_valid_submit_dispatches_one_record filledState demoEnv
    "food" "cash" "g1" [] [] [] (by decide) rfl (by decide) rfl rfl
  ⟨by decide, rfl, by decide, rfl, rfl, h.1, by decide, h.2.1, h.2.2.2.2 rfl⟩

/-- C3: when the store dispatch throws on a validated submission,
`handleAddExpense` shows the failure message "Failed to add expense" and
leaves every form field exactly as it was before the call. -/
theorem C3_dispatch_throw_preserves_form (s : ScreenState) (env : SubmitEnv)
    (hthrow : env.dispatchThrows = true)
    (ha : s.amount ≠ "") (hc : s.category ≠ []) (hd : s.description ≠ "")
    (hp : s.paymentMethod ≠ []) (hg : s.group ≠ []) :
    (handleAddExpense s env).1.feedbackMessage = "Failed to add expense" ∧
    (handleAddExpense s env).1.snackbarSuccess = false ∧
    (handleAddExpense s env).1.isSnackbarVisible = true ∧
    (handleAddExpense s env).1.amount = s.amount ∧
    (handleAddExpense s env).1.category = s.category ∧
    (handleAddExpense s env).1.description = s.description ∧
    (handleAddExpense s env).1.selectedDate = s.selectedDate ∧
    (handleAddExpense s env).1.paymentMethod = s.paymentMethod ∧
    (handleAddExpense s env).1.group = s.group := by
  have hcond : ¬(s.amount = "" ∨ s.category = [] ∨ s.description = "" ∨
      s.paymentMethod = [] ∨ s.group = []) := by
    simp [ha, hc, hd, hp, hg]
  simp [handleAddExpense, if_neg hcond, hthrow, showFeedback]

/-- Witness for C3: the populated form submitted against a throwing
dispatch keeps all its data. -/
theorem C3_witness :
    demoEnvThrow.dispatchThrows = true ∧
    filledState.amount ≠ "" ∧ filledState.category ≠ [] ∧
    filledState.description ≠ "" ∧ filledState.paymentMethod ≠ [] ∧
    filledState.group ≠ [] ∧
    ((handleAddExpense filledState demoEnvThrow).1.feedbackMessage =
        "Failed to add expense" ∧
     (handleAddExpense filledState demoEnvThrow).1.snackbarSuccess = false ∧
     (handleAddExpense filledState demoEnvThrow).1.isSnackbarVisible = true ∧
     (handleAddExpense filledState demoEnvThrow).1.amount = filledState.amount ∧
     (handleAddExpense filledState demoEnvThrow).1.category = filledState.category ∧
     (handleAddExpense filledState demoEnvThrow).1.description = filledState.description ∧
     (handleAddExpense filledState demoEnvThrow).1.selectedDate = filledState.selectedDate ∧
     (handleAddExpense filledState demoEnvThrow).1.paymentMethod = filledState.paymentMethod ∧
     (handleAddExpense filledState demoEnvThrow).1.group = filledState.group) :=
  ⟨rfl, by decide, by decide, by decide, by decide, by decide,
   C3_dispatch_throw_preserves_form filledState demoEnvThrow rfl
     (by decide) (by decide) (by decide) (by decide) (by decide)⟩

/-- C5: when the store dispatch succeeds on a validated submission,
`handleAddExpense` shows the success message "Expense added successfully"
and resets every field, the group selection to the first loaded group's
id when the loaded group list is non-empty and to empty otherwise. -/
theorem C5_success_resets_form (s : ScreenState) (env : SubmitEnv)
    (hok : env.dispatchThrows = false)
    (ha : s.amount ≠ "") (hc : s.category ≠ []) (hd : s.description ≠ "")
    (hp : s.paymentMethod ≠ []) (hg : s.group ≠ []) :
    (handleAddExpense s env).1.feedbackMessage = "Expense added successfully" ∧
    (handleAddExpense s env).1.snackbarSuccess = true ∧
    (handleAddExpense s env).1.isSnackbarVisible = true ∧
    (handleAddExpense s env).1.amount = "" ∧
    (handleAddExpense s env).1.category = [] ∧
    (handleAddExpense s env).1.description = "" ∧
    (handleAddExpense s env).1.selectedDate = none ∧
    (handleAddExpense s env).1.paymentMethod = [] ∧
    (s.availableGroups = [] → (handleAddExpense s env).1.group = []) ∧
    (∀ g0 rest, s.availableGroups = g0 :: rest →
      (handleAddExpense s env).1.group = [g0.id]) := by
  have hcond : ¬(s.amount = "" ∨ s.category = [] ∨ s.description = "" ∨
      s.paymentMethod = [] ∨ s.group = []) := by
    simp [ha, hc, hd, hp, hg]
  refine ⟨?_, ?_, ?_, ?_, ?_, ?_, ?_, ?_, ?_, ?_⟩ <;>
    simp [handleAddExpense, if_neg hcond, hok, showFeedback]
  · intro hempty
    simp [hempty]
  · intro g0 rest hcons
    simp [hcons]

/-- Witness for C5: submitting the populated form with a succeeding
dispatch resets it, the group back to the one loaded group. -/
theorem C5_witness :
    demoEnv.dispatchThrows = false ∧
    filledState.amount ≠ "" ∧ filledState.category ≠ [] ∧
    filledState.description ≠ "" ∧ filledState.paymentMethod ≠ [] ∧
    filledState.group ≠ [] ∧
    filledState.availableGroups = OptionItem.mk "g1" "Group One" :: [] ∧
    ((handleAddExpense filledState demoEnv).1.feedbackMessage =
        "Expense added successfully" ∧
     (handleAddExpense filledState demoEnv).1.snackbarSuccess = true ∧
     (handleAddExpense filledState demoEnv).1.isSnackbarVisible = true ∧
     (handleAddExpense filledState demoEnv).1.amount = "" ∧
     (handleAddExpense filledState demoEnv).1.category = [] ∧
     (handleAddExpense filledState demoEnv).1.description = "" ∧
     (handleAddExpense filledState demoEnv).1.selectedDate = none ∧
     (handleAddExpense filledState demoEnv).1.paymentMethod = [] ∧
     (handleAddExpense filledState demoEnv).1.group = ["g1"]) :=
  have h := C5_success_resets_form filledState demoEnv rfl
    (by decide) (by decide) (by decide) (by decide) (by decide)
  ⟨rfl, by decide, by decide, by decide, by decide, by decide, rfl,
   h.1, h.2.1, h.2.2.1, h.2.2.2.1, h.2.2.2.2.1, h.2.2.2.2.2.1,
   h.2.2.2.2.2.2.1, h.2.2.2.2.2.2.2.1,
   h.2.2.2.2.2.2.2.2.2 ⟨"g1", "Group One"⟩ [] rfl⟩

/-- C6: on a successful group fetch `loadGroups` stores the results
projected to id/name and, when non-empty, pre-selects the first group's
id; on a failed fetch it emits one "Failed to load groups" error toast
and leaves the whole state untouched. -/
theorem C6_loadGroups_behaviour (s : ScreenState) (groups : List Group) :
    (loadGroups s (.ok groups)).1.availableGroups =
      groups.map (fun g => OptionItem.mk g.id g.name) ∧
    (loadGroups s (.ok groups)).2 = [] ∧
    (groups = [] → (loadGroups s (.ok groups)).1.group = s.group) ∧
    (∀ g0 rest, groups = g0 :: rest →
      (loadGroups s (.ok groups)).1.group = [g0.id]) ∧
    (loadGroups s (.error ())).1 = s ∧
    (loadGroups s (.error ())).2 = [⟨"Failed to load groups", "error"⟩] := by
  refine ⟨?_, ?_, ?_, ?_, rfl, rfl⟩
  · cases groups <;> simp [loadGroups]
  · cases groups <;> simp [loadGroups]
  · intro hempty
    simp [hempty, loadGroups]
  · intro g0 rest hcons
    simp [hcons, loadGroups]

/-- Witness for C6: one fetched group is stored, projected, and
pre-selected; the failing fetch leaves the initial state alone. -/
theorem C6_witness :
    (loadGroups initialState (.ok [⟨"g1", "Group One", "members"⟩])).1.availableGroups =
      [OptionItem.mk "g1" "Group One"] ∧
    (loadGroups initialState (.ok [⟨"g1", "Group One", "members"⟩])).2 = [] ∧
    (loadGroups initialState (.ok [⟨"g1", "Group One", "members"⟩])).1.group = ["g1"] ∧
    (loadGroups initialState (.error ())).1 = initialState ∧
    (loadGroups initialState (.error ())).2 =
      [⟨"Failed to load groups", "error"⟩] :=
  have h := C6_loadGroups_behaviour initialState [⟨"g1", "Group One", "members"⟩]
  ⟨h.1, h.2.1, h.2.2.2.1 ⟨"g1", "Group One", "members"⟩ [] rfl, h.2.2.2.2.1,
   h.2.2.2.2.2⟩

/-- C4 counterexample: with one master category visible, a succeeding
category fetch followed by a failing payment-method fetch *does* update
the available-category list (from empty to the filtered result), so it is
false that a failure of either fetch leaves both lists un-updated. -/
theorem C4_counterexample :
    (loadSettings [⟨"c1", "Food"⟩] [] initialState
        (.ok [("c1", true)]) (.error ())).1.availableCategories =
      [OptionItem.mk "c1" "Food"] ∧
    initialState.availableCategories = [] ∧
    (loadSettings [⟨"c1", "Food"⟩] [] initialState
        (.ok [("c1", true)]) (.error ())).1.availableCategories ≠
      initialState.availableCategories ∧
    (loadSettings [⟨"c1", "Food"⟩] [] initialState
        (.ok [("c1", true)]) (.error ())).2 =
      [⟨"Failed to load settings", "error"⟩] := by
  refine ⟨rfl, rfl, ?_, rfl⟩
  decide

/-- C4 amended: if the category-visibility fetch fails, neither list is
updated and exactly one "Failed to load settings" error toast is emitted;
if the category fetch succeeds and the payment-method fetch fails, the
available-category list has already been updated to the filtered result
while the payment-method list is left untouched, again with exactly one
such toast. -/
theorem C4_settings_failure_behaviour (masterCats masterPms : List OptionItem)
    (s : ScreenState) (pmFetch : Except Unit (List (String × Bool)))
    (visCat : List (String × Bool)) :
    ((loadSettings masterCats masterPms s (.error ()) pmFetch).1 = s ∧
     (loadSettings masterCats masterPms s (.error ()) pmFetch).2 =
        [⟨"Failed to load settings", "error"⟩]) ∧
    ((loadSettings masterCats masterPms s (.ok visCat) (.error ())).1.availableCategories =
        (masterCats.filter (fun c => lookupVisible visCat c.id)).map
          (fun c => OptionItem.mk c.id c.name) ∧
     (loadSettings masterCats masterPms s (.ok visCat) (.error ())).1.availablePaymentMethods =
        s.availablePaymentMethods ∧
     (loadSettings masterCats masterPms s (.ok visCat) (.error ())).1.availableGroups =
        s.availableGroups ∧
     (loadSettings masterCats masterPms s (.ok visCat) (.error ())).2 =
        [⟨"Failed to load settings", "error"⟩]) := by
  exact ⟨⟨rfl, rfl⟩, rfl, rfl, rfl, rfl⟩

/-- C7: on a fully successful settings load the available-category and
available-payment-method lists become exactly the master-list entries
whose visibility flag reads true, projected to id/name; an id omitted
from the mapping reads as false and is filtered out, and no error toast
is emitted. -/
theorem C7_loadSettings_filters_visible (masterCats masterPms : List OptionItem)
    (s : ScreenState) (visCat visPm : List (String × Bool)) :
    (loadSettings masterCats masterPms s (.ok visCat) (.ok visPm)).1.availableCategories =
      (masterCats.filter (fun c => lookupVisible visCat c.id)).map
        (fun c => OptionItem.mk c.id c.name) ∧
    (loadSettings masterCats masterPms s (.ok visCat) (.ok visPm)).1.availablePaymentMethods =
      (masterPms.filter (fun m => lookupVisible visPm m.id)).map
        (fun m => OptionItem.mk m.id m.name) ∧
    (loadSettings masterCats masterPms s (.ok visCat) (.ok visPm)).2 = [] ∧
    (∀ k, visCat.lookup k = none → lookupVisible visCat k = false) ∧
    (∀ c ∈ masterCats, visCat.lookup c.id = none →
      c ∉ (loadSettings masterCats masterPms s (.ok visCat) (.ok visPm)).1.availableCategories) ∧
    (∀ m ∈ masterPms, visPm.lookup m.id = none →
      m ∉ (loadSettings masterCats masterPms s (.ok visCat) (.ok visPm)).1.availablePaymentMethods) := by
  refine ⟨rfl, rfl, rfl, fun k hk => lookupVisible_of_lookup_none _ _ hk, ?_, ?_⟩
  · intro c _ hnone hmem
    have hlist :
        (loadSettings masterCats masterPms s (.ok visCat) (.ok visPm)).1.availableCategories =
          (masterCats.filter (fun x => lookupVisible visCat x.id)).map
            (fun x => OptionItem.mk x.id x.name) := rfl
    rw [hlist] at hmem
    rcases List.mem_map.mp hmem with ⟨c2, hc2mem, hproj⟩
    have hvis := (List.mem_filter.mp hc2mem).2
    have hid : c2.id = c.id := by
      have := congrArg OptionItem.id hproj
      simpa using this
    rw [hid] at hvis
    rw [lookupVisible_of_lookup_none _ _ hnone] at hvis
    exact Bool.false_ne_true hvis
  · intro m _ hnone hmem
    have hlist :
        (loadSettings masterCats masterPms s (.ok visCat) (.ok visPm)).1.availablePaymentMethods =
          (masterPms.filter (fun x => lookupVisible visPm x.id)).map
            (fun x => OptionItem.mk x.id x.name) := rfl
    rw [hlist] at hmem
    rcases List.mem_map.mp hmem with ⟨m2, hm2mem, hproj⟩
    have hvis := (List.mem_filter.mp hm2mem).2
    have hid : m2.id = m.id := by
      have := congrArg OptionItem.id hproj
      simpa using this
    rw [hid] at hvis
    rw [lookupVisible_of_lookup_none _ _ hnone] at hvis
    exact Bool.false_ne_true hvis

/-- Witness for C7: of two master categories only the one flagged true
survives; the category "c2" and the payment method "p1", both omitted
from their mappings, are filtered out without an error. -/
theorem C7_witness :
    (loadSettings [⟨"c1", "Food"⟩, ⟨"c2", "Travel"⟩] [⟨"p1", "Cash"⟩]
        initialState (.ok [("c1", true)]) (.ok [])).1.availableCategories =
      [OptionItem.mk "c1" "Food"] ∧
    (loadSettings [⟨"c1", "Food"⟩, ⟨"c2", "Travel"⟩] [⟨"p1", "Cash"⟩]
        initialState (.ok [("c1", true)]) (.ok [])).2 = [] ∧
    OptionItem.mk "c2" "Travel" ∉
      (loadSettings [⟨"c1", "Food"⟩, ⟨"c2", "Travel"⟩] [⟨"p1", "Cash"⟩]
        initialState (.ok [("c1", true)]) (.ok [])).1.availableCategories ∧
    OptionItem.mk "p1" "Cash" ∉
      (loadSettings [⟨"c1", "Food"⟩, ⟨"c2", "Travel"⟩] [⟨"p1", "Cash"⟩]
        initialState (.ok [("c1", true)]) (.ok [])).1.availablePaymentMethods :=
  have h := C7_loadSettings_filters_visible
    [⟨"c1", "Food"⟩, ⟨"c2", "Travel"⟩] [⟨"p1", "Cash"⟩]
    initialState [("c1", true)] []
  ⟨h.1, h.2.2.1,
   h.2.2.2.2.1 ⟨"c2", "Travel"⟩ (by decide) rfl,
   h.2.2.2.2.2 ⟨"p1", "Cash"⟩ (by decide) rfl⟩

/-- C8: the settings-load path is idempotent: with the master lists and
both fetch outcomes fixed, a second run from the state the first run
produced yields the same available-category and available-payment-method
lists as the first run. -/
theorem C8_loadSettings_idempotent (masterCats masterPms : List OptionItem)
    (s : ScreenState) (catFetch pmFetch : Except Unit (List (String × Bool))) :
    (loadSettings masterCats masterPms
        (loadSettings masterCats masterPms s catFetch pmFetch).1
        catFetch pmFetch).1.availableCategories =
      (loadSettings masterCats masterPms s catFetch pmFetch).1.availableCategories ∧
    (loadSettings masterCats masterPms
        (loadSettings masterCats masterPms s catFetch pmFetch).1
        catFetch pmFetch).1.availablePaymentMethods =
      (loadSettings masterCats masterPms s catFetch pmFetch).1.availablePaymentMethods := by
  cases catFetch <;> cases pmFetch <;> simp [loadSettings]

/-- C9: a non-empty amount text on which `parseFloat` yields NaN is not
rejected: with the other fields populated, `handleAddExpense` still
passes exactly one record to the dispatch and that record's amount is
NaN. -/
theorem C9_nan_amount_dispatched (s : ScreenState) (env : SubmitEnv)
    (ha : s.amount ≠ "") (hnan : parseFloat s.amount = JSNum.nan)
    (hc : s.category ≠ []) (hd : s.description ≠ "")
    (hp : s.paymentMethod ≠ []) (hg : s.group ≠ []) :
    ∃ e : Expense, (handleAddExpense s env).2 = [e] ∧ e.amount = JSNum.nan := by
  have hcond : ¬(s.amount = "" ∨ s.category = [] ∨ s.description = "" ∨
      s.paymentMethod = [] ∨ s.group = []) := by
    simp [ha, hc, hd, hp, hg]
  refine ⟨{ id := generateUUID env.uuidSeed
            amount := parseFloat s.amount
            category := s.category.headD ""
            description := s.description
            date := (s.selectedDate.getD env.now).toISOString
            paymentMethod := s.paymentMethod.headD ""
            group := s.group.headD "" }, ?_, hnan⟩
  cases hB : env.dispatchThrows <;>
    simp [handleAddExpense, if_neg hcond, hB]

/-- Witness for C9: the amount text "abc" parses to NaN and is
dispatched as the record's amount. -/
theorem C9_witness :
    nanState.amount ≠ "" ∧
    parseFloat nanState.amount = JSNum.nan ∧
    nanState.category ≠ [] ∧ nanState.description ≠ "" ∧
    nanState.paymentMethod ≠ [] ∧ nanState.group ≠ [] ∧
    (∃ e : Expense, (handleAddExpense nanState demoEnv).2 = [e] ∧
      e.amount = JSNum.nan) :=
  ⟨by decide, by decide, by decide, by decide, by decide, by decide,
   C9_nan_amount_dispatched nanState demoEnv (by decide) (by decide)
     (by decide) (by decide) (by decide) (by decide)⟩

/-- C10: `handleAddExpense` never touches the three option lists: the
available-group, available-category and available-payment-method lists
are unchanged on every path (validation failure, throwing dispatch, or
success). -/
theorem C10_submit_preserves_option_lists (s : ScreenState) (env : SubmitEnv) :
    (handleAddExpense s env).1.availableGroups = s.availableGroups ∧
    (handleAddExpense s env).1.availableCategories = s.availableCategories ∧
    (handleAddExpense s env).1.availablePaymentMethods = s.availablePaymentMethods := by
  by_cases h : s.amount = "" ∨ s.category = [] ∨ s.description = "" ∨
      s.paymentMethod = [] ∨ s.group = []
  · simp [handleAddExpense, if_pos h, showFeedback]
  · cases hB : env.dispatchThrows <;>
      simp [handleAddExpense, if_neg h, hB, showFeedback]

end AddExpense
